import Mathlib

set_option linter.unusedVariables false

/-!
Shallow embedding of the uptime-kuma-bridge source file src/index.ts: a
Socket.IO to HTTP bridge keeping one socket per URI in a registry, a
monitor cache fed by server push events, and three Express endpoints
(POST /emit, POST /monitors, POST /groups).  JavaScript values are
modelled by JSValue, JavaScript objects by association lists with
string keys, and the asynchronous part of socket establishment by an
explicit EstablishOutcome parameter describing what the remote server
does during the initial handshake of a freshly created socket.
-/

/-- JavaScript runtime values, as far as the bridge inspects them. -/
inductive JSValue where
  | undefined : JSValue
  | null : JSValue
  | bool (b : Bool) : JSValue
  | num (n : Int) : JSValue
  | str (s : String) : JSValue
  | obj (fields : List (String × JSValue)) : JSValue

/-- JavaScript truthiness, as used by the `!x` checks in the handlers. -/
def truthy : JSValue → Bool
  | .undefined => false
  | .null => false
  | .bool b => b
  | .num n => n != 0
  | .str s => s != ""
  | .obj _ => true

/-- The JavaScript nullish coalescing operator `x ?? d` from line 104. -/
def nullishCoalesce (v d : JSValue) : JSValue :=
  match v with
  | .undefined => d
  | .null => d
  | w => w

/-- Coercion of a JavaScript value to a property key, as performed by
`o[k]` when `k` is not a string. -/
def jsToKey : JSValue → String
  | .undefined => "undefined"
  | .null => "null"
  | .bool b => if b then "true" else "false"
  | .num n => toString n
  | .str s => s
  | .obj _ => "[object Object]"

/-- Lookup in an association list modelling a JavaScript object. -/
def assocLookup {α : Type} : List (String × α) → String → Option α
  | [], _ => none
  | (k, v) :: rest, key => if k = key then some v else assocLookup rest key

/-- Property assignment `o[key] = v` on a JavaScript object: an existing
key keeps its position, a new key is appended at the end. -/
def assocSet {α : Type} : List (String × α) → String → α → List (String × α)
  | [], key, v => [(key, v)]
  | (k, w) :: rest, key, v =>
      if k = key then (key, v) :: rest else (k, w) :: assocSet rest key v

/-- Property removal `delete o[key]` on a JavaScript object.  Keys of a
JavaScript object are unique, so removing every occurrence coincides
with removing the one occurrence. -/
def assocDelete {α : Type} : List (String × α) → String → List (String × α)
  | [], _ => []
  | (k, v) :: rest, key =>
      if k = key then assocDelete rest key else (k, v) :: assocDelete rest key

/-- `Object.values(o)`, in insertion order. -/
def assocValues {α : Type} (m : List (String × α)) : List α :=
  m.map Prod.snd

/-- Property read from an object field list, yielding `undefined` when
the field is absent, as destructuring of a request body does. -/
def jsGet (fields : List (String × JSValue)) (key : String) : JSValue :=
  match assocLookup fields key with
  | some v => v
  | none => .undefined

/-- Property read `v.key` on an arbitrary value; non-objects yield
`undefined` for the properties the bridge reads. -/
def jsProp (v : JSValue) (key : String) : JSValue :=
  match v with
  | .obj fields => jsGet fields key
  | _ => .undefined

/-- Keys of an object value, used to state which fields a response item
carries. -/
def jsKeys : JSValue → List String
  | .obj fields => fields.map Prod.fst
  | _ => []

/-- The underlying Socket.IO client handle: an identity for the socket
object plus its `connected` flag. -/
structure SocketHandle where
  sid : Nat
  connected : Bool

/-- One entry of the `sockets` registry (line 15): the socket plus the
monitor cache, which starts out as the empty collection. -/
structure Entry where
  socket : SocketHandle
  monitors : List (String × JSValue)

/-- The process-wide `sockets` map from URI to entry. -/
abbrev Registry := List (String × Entry)

/-- What the remote server does during the initial handshake of a fresh
socket: answers the login with ok, answers it with a failure, or the
transport disconnects with a reason before the promise resolves. -/
inductive EstablishOutcome where
  | loginOk : EstablishOutcome
  | loginFailed : EstablishOutcome
  | disconnected (reason : String) : EstablishOutcome
deriving DecidableEq

/-- Result of awaiting the promise returned by `connectSocket`. -/
inductive ConnectResult where
  | reused (s : SocketHandle) : ConnectResult
  | established (s : SocketHandle) : ConnectResult
  | failed (err : String) : ConnectResult

/-- The `connectSocket` function (lines 22-77).  An existing entry is
returned at once, credentials and handshake ignored.  Otherwise a fresh
socket is created and the entry is stored under the URI on line 36,
before the handshake has resolved; the promise then resolves on a
successful login acknowledgement and rejects on a failed login or on a
disconnect, in every case leaving the stored entry in place.  The
`fresh` parameter names the identity of the newly created socket. -/
def connectSocket (reg : Registry) (uri : String) (credentials : JSValue)
    (fresh : Nat) (outcome : EstablishOutcome) : ConnectResult × Registry :=
  match assocLookup reg uri with
  | some e => (.reused e.socket, reg)
  | none =>
    match outcome with
    | .loginOk =>
        let s : SocketHandle := { sid := fresh, connected := true }
        (.established s, assocSet reg uri { socket := s, monitors := [] })
    | .loginFailed =>
        let s : SocketHandle := { sid := fresh, connected := true }
        (.failed "Login failed", assocSet reg uri { socket := s, monitors := [] })
    | .disconnected reason =>
        let s : SocketHandle := { sid := fresh, connected := false }
        (.failed reason, assocSet reg uri { socket := s, monitors := [] })

/-- Body of an HTTP response: a single JSON value or a JSON array. -/
inductive RespBody where
  | val (v : JSValue) : RespBody
  | list (vs : List JSValue) : RespBody

/-- An HTTP response as written by `res.status(...).json(...)`. -/
structure HttpResponse where
  status : Nat
  body : RespBody

/-- The 400 response of POST /emit validation (lines 86-88). -/
def resp400emit : HttpResponse :=
  ⟨400, .val (.obj [("error", .str "`uri`, `credentials`, `event`, and `payload` are required")])⟩

/-- The 400 response of POST /monitors and POST /groups validation. -/
def resp400uriCred : HttpResponse :=
  ⟨400, .val (.obj [("error", .str "`uri` and `credentials` are required")])⟩

/-- The 503 response written when the socket is not connected. -/
def resp503 : HttpResponse :=
  ⟨503, .val (.obj [("error", .str "Socket.IO disconnected")])⟩

/-- The 504 response written by the ACK timeout timer (lines 91-96). -/
def timeoutResponse (event : JSValue) : HttpResponse :=
  ⟨504, .val (.obj [("error", .str "ACK timeout"), ("event", event)])⟩

/-- The response written by the acknowledgement callback (lines 104-112):
400 with the ack payload verbatim when `ack.ok` is falsy, otherwise the
default 200 with the ack payload verbatim. -/
def ackResponse (ack : JSValue) : HttpResponse :=
  if truthy (jsProp ack "ok") then ⟨200, .val ack⟩ else ⟨400, .val ack⟩

/-- Where the POST /emit handler stands after its synchronous prefix and
the awaited `connectSocket` (lines 82-104).  `response` carries the
response already written together with whether the timeout timer is
still armed at that point; `hang` models the awaited promise rejecting,
which leaves the request without a response from this code path;
`emitted` means the event was emitted with an ack callback registered
and the timer armed. -/
inductive EmitPhase1Result where
  | response (r : HttpResponse) (timerArmed : Bool) : EmitPhase1Result
  | hang (err : String) : EmitPhase1Result
  | emitted (event : JSValue) (payload : JSValue) : EmitPhase1Result

/-- The POST /emit handler up to the emit itself (lines 82-104).  The
validation guard mirrors `!uri || !credentials || !event || !payload`;
it runs before the timer is set and before any connection attempt. -/
def emitPhase1 (body : List (String × JSValue)) (reg : Registry)
    (fresh : Nat) (outcome : EstablishOutcome) : EmitPhase1Result × Registry :=
  let uri := jsGet body "uri"
  let credentials := jsGet body "credentials"
  let event := jsGet body "event"
  let payload := jsGet body "payload"
  if !(truthy uri) || !(truthy credentials) || !(truthy event) || !(truthy payload) then
    (.response resp400emit false, reg)
  else
    match connectSocket reg (jsToKey uri) credentials fresh outcome with
    | (.failed err, regA) => (.hang err, regA)
    | (.reused s, regA) =>
        if s.connected then
          (.emitted event (nullishCoalesce payload (.obj [])), regA)
        else
          (.response resp503 true, regA)
    | (.established s, regA) =>
        if s.connected then
          (.emitted event (nullishCoalesce payload (.obj [])), regA)
        else
          (.response resp503 true, regA)

/-- The `timeout = 5000` default of the body destructuring on line 83:
the default applies exactly when the field is undefined. -/
def emitTimeout (body : List (String × JSValue)) : JSValue :=
  match jsGet body "timeout" with
  | .undefined => .num 5000
  | v => v

/-- State of one pending POST /emit request after the event has been
emitted: the list of response write attempts made on its `res` object so
far, and whether the timeout timer is still armed. -/
structure EmitState where
  attempts : List HttpResponse
  timerArmed : Bool

/-- State right after `socket.emit` on line 104: no response written,
timer armed. -/
def emitInit : EmitState := ⟨[], true⟩

/-- The two things that can later happen to a pending emit request. -/
inductive EmitEvent where
  | timerFires : EmitEvent
  | ackArrives (ack : JSValue) : EmitEvent

/-- One scheduler step on a pending emit request, from the source.  The
timer callback (lines 91-96) runs only while the timer is armed and
writes the 504 response.  The ack callback (lines 104-112) always runs
when an ack arrives: it clears the timer and then writes its response,
with no guard asking whether a response was already written. -/
def emitStep (event : JSValue) (st : EmitState) : EmitEvent → EmitState
  | .timerFires =>
      if st.timerArmed then ⟨st.attempts ++ [timeoutResponse event], false⟩ else st
  | .ackArrives ack => ⟨st.attempts ++ [ackResponse ack], false⟩

/-- Result of the POST /monitors and POST /groups handlers. -/
inductive QueryResult where
  | response (r : HttpResponse) : QueryResult
  | hang (err : String) : QueryResult

/-- The monitor cache read `sockets[uri].monitors` on lines 133 and 155;
after the awaited `connectSocket` the entry always exists. -/
def monitorsOf (reg : Registry) (uri : String) : List (String × JSValue) :=
  match assocLookup reg uri with
  | some e => e.monitors
  | none => []

/-- The POST /monitors handler (lines 118-134). -/
def monitorsHandler (body : List (String × JSValue)) (reg : Registry)
    (fresh : Nat) (outcome : EstablishOutcome) : QueryResult × Registry :=
  let uri := jsGet body "uri"
  let credentials := jsGet body "credentials"
  if !(truthy uri) || !(truthy credentials) then
    (.response resp400uriCred, reg)
  else
    match connectSocket reg (jsToKey uri) credentials fresh outcome with
    | (.failed err, regA) => (.hang err, regA)
    | (.reused s, regA) =>
        if s.connected then
          (.response ⟨200, .list (assocValues (monitorsOf regA (jsToKey uri)))⟩, regA)
        else
          (.response resp503, regA)
    | (.established s, regA) =>
        if s.connected then
          (.response ⟨200, .list (assocValues (monitorsOf regA (jsToKey uri)))⟩, regA)
        else
          (.response resp503, regA)

/-- The filter `m.type === "group"` on line 156: strict equality with a
string literal. -/
def isGroup (v : JSValue) : Bool :=
  match jsProp v "type" with
  | .str s => s == "group"
  | _ => false

/-- The projection `{ id: group.id, name: group.name }` on lines 157-160. -/
def projectGroup (g : JSValue) : JSValue :=
  .obj [("id", jsProp g "id"), ("name", jsProp g "name")]

/-- The body of the POST /groups 200 response, from lines 154-161. -/
def groupsBody (m : List (String × JSValue)) : List JSValue :=
  ((assocValues m).filter isGroup).map projectGroup

/-- The POST /groups handler (lines 139-162). -/
def groupsHandler (body : List (String × JSValue)) (reg : Registry)
    (fresh : Nat) (outcome : EstablishOutcome) : QueryResult × Registry :=
  let uri := jsGet body "uri"
  let credentials := jsGet body "credentials"
  if !(truthy uri) || !(truthy credentials) then
    (.response resp400uriCred, reg)
  else
    match connectSocket reg (jsToKey uri) credentials fresh outcome with
    | (.failed err, regA) => (.hang err, regA)
    | (.reused s, regA) =>
        if s.connected then
          (.response ⟨200, .list (groupsBody (monitorsOf regA (jsToKey uri)))⟩, regA)
        else
          (.response resp503, regA)
    | (.established s, regA) =>
        if s.connected then
          (.response ⟨200, .list (groupsBody (monitorsOf regA (jsToKey uri)))⟩, regA)
        else
          (.response resp503, regA)

/-- The three server push events consumed by the cache handlers on
lines 47-61.  Per the transport interface, the upsert envelope carries
exactly one value under an arbitrary key. -/
inductive PushEvent where
  | monitorList (data : List (String × JSValue)) : PushEvent
  | updateMonitorIntoList (envKey : String) (entity : JSValue) : PushEvent
  | deleteMonitorFromList (monitorId : JSValue) : PushEvent

/-- The id key of an entity: `data.id` coerced to a property key. -/
def entityId (e : JSValue) : String :=
  jsToKey (jsProp e "id")

/-- The three cache mutation handlers from the source (lines 47-61):
full replacement by the pushed collection, `monitors[data.id] = data`
for the single enveloped value, and `delete monitors[monitorId]`. -/
def applyPush (m : List (String × JSValue)) : PushEvent → List (String × JSValue)
  | .monitorList data => data
  | .updateMonitorIntoList _ entity => assocSet m (entityId entity) entity
  | .deleteMonitorFromList monitorId => assocDelete m (jsToKey monitorId)

/-- Reference mapping semantics, following the specification text for
the Entity Cache Synchronizer: the cache is a mapping from entity ID to
entity; a full replace installs the pushed mapping wholesale, an upsert
writes the single enveloped entity at its id overwriting any existing
entry, and a delete removes the key with absence not an error. -/
def refApply (r : String → Option JSValue) : PushEvent → (String → Option JSValue)
  | .monitorList data => fun k => assocLookup data k
  | .updateMonitorIntoList _ entity => fun k => if k = entityId entity then some entity else r k
  | .deleteMonitorFromList monitorId => fun k => if k = jsToKey monitorId then none else r k

/-- Sample credentials object used by concrete instances. -/
def sampleCreds : JSValue :=
  .obj [("username", .str "a"), ("password", .str "b")]

/-- Sample registry entry with a connected socket and no monitors. -/
def entrySample : Entry := ⟨⟨0, true⟩, []⟩

/-- Sample registry entry whose socket is not connected. -/
def deadEntry : Entry := ⟨⟨0, false⟩, []⟩

/-- Sample valid POST /emit body. -/
def emitBodySample : List (String × JSValue) :=
  [("uri", .str "u"), ("credentials", sampleCreds),
   ("event", .str "ping"), ("payload", .obj [])]

/-- Sample POST /emit body whose payload field is present but null. -/
def nullPayloadBody : List (String × JSValue) :=
  [("uri", .str "u"), ("credentials", sampleCreds),
   ("event", .str "ping"), ("payload", .null)]

/-- Sample valid POST /monitors and POST /groups body. -/
def listBody : List (String × JSValue) :=
  [("uri", .str "u"), ("credentials", sampleCreds)]

/-- Sample monitor entity of kind group. -/
def groupMon : JSValue :=
  .obj [("id", .num 1), ("type", .str "group"), ("name", .str "G")]

/-- Sample monitor entity of a kind other than group. -/
def plainMon : JSValue :=
  .obj [("id", .num 2), ("type", .str "http"), ("name", .str "M")]

/-- Sample registry entry with a connected socket and two monitors. -/
def liveEntry : Entry := ⟨⟨0, true⟩, [("1", groupMon), ("2", plainMon)]⟩

/-- Sample ack payload whose ok flag is false. -/
def ackFalseSample : JSValue :=
  .obj [("ok", .bool false), ("msg", .str "denied")]


theorem assocLookup_assocSet {α : Type} (m : List (String × α)) (key k : String) (v : α) :
    assocLookup (assocSet m key v) k = if k = key then some v else assocLookup m k := by
  induction m with
  | nil =>
    by_cases h : k = key
    · subst h; simp [assocSet, assocLookup]
    · simp [assocSet, assocLookup, h, Ne.symm h]
  | cons hd tl ih =>
    obtain ⟨k1, v1⟩ := hd
    by_cases h1 : k1 = key
    · subst h1
      by_cases h2 : k1 = k
      · subst h2; simp [assocSet, assocLookup]
      · simp [assocSet, assocLookup, h2, Ne.symm h2]
    · by_cases h2 : k1 = k
      · subst h2
        simp [assocSet, assocLookup, h1, Ne.symm h1]
      · simp [assocSet, assocLookup, h1, h2, ih]

theorem assocLookup_assocDelete {α : Type} (m : List (String × α)) (key k : String) :
    assocLookup (assocDelete m key) k = if k = key then none else assocLookup m k := by
  induction m with
  | nil => simp [assocDelete, assocLookup]
  | cons hd tl ih =>
    obtain ⟨k1, v1⟩ := hd
    by_cases h1 : k1 = key
    · subst h1
      by_cases h2 : k = k1
      · subst h2
        simp only [assocDelete, if_pos rfl, if_pos]
        simpa using ih
      · simp [assocDelete, assocLookup, ih, h2, Ne.symm h2]
    · by_cases h2 : k1 = k
      · subst h2
        simp [assocDelete, assocLookup, h1]
      · simp [assocDelete, assocLookup, h1, h2, ih]

theorem assocSet_of_lookup_none {α : Type} {m : List (String × α)} {key : String}
    (h : assocLookup m key = none) (v : α) :
    assocSet m key v = m ++ [(key, v)] := by
  induction m with
  | nil => simp [assocSet]
  | cons hd tl ih =>
    obtain ⟨k1, v1⟩ := hd
    simp only [assocLookup] at h
    by_cases h1 : k1 = key
    · simp [h1] at h
    · simp only [if_neg h1] at h
      simp [assocSet, h1, ih h]

theorem not_mem_keys_of_lookup_none {α : Type} {m : List (String × α)} {key : String}
    (h : assocLookup m key = none) : key ∉ m.map Prod.fst := by
  induction m with
  | nil => simp
  | cons hd tl ih =>
    obtain ⟨k1, v1⟩ := hd
    simp only [assocLookup] at h
    by_cases h1 : k1 = key
    · simp [h1] at h
    · simp only [if_neg h1] at h
      simp only [List.map_cons, List.mem_cons, not_or]
      exact ⟨Ne.symm h1, ih h⟩

theorem connectSocket_lookup_some {reg : Registry} {uri : String} {e : Entry}
    (credentials : JSValue) (fresh : Nat) (outcome : EstablishOutcome)
    (h : assocLookup reg uri = some e) :
    connectSocket reg uri credentials fresh outcome = (.reused e.socket, reg) := by
  simp [connectSocket, h]

theorem connectSocket_lookup_none_loginOk {reg : Registry} {uri : String}
    (credentials : JSValue) (fresh : Nat)
    (h : assocLookup reg uri = none) :
    connectSocket reg uri credentials fresh .loginOk =
      (.established ⟨fresh, true⟩, assocSet reg uri ⟨⟨fresh, true⟩, []⟩) := by
  simp [connectSocket, h]

theorem truthy_jsGet_none {body : List (String × JSValue)} {key : String}
    (h : assocLookup body key = none) : truthy (jsGet body key) = false := by
  simp [jsGet, h, truthy]

theorem refApply_agrees (ev : PushEvent) (m : List (String × JSValue))
    (r : String → Option JSValue) (hag : ∀ k, assocLookup m k = r k) :
    ∀ k, assocLookup (applyPush m ev) k = refApply r ev k := by
  intro k
  cases ev with
  | monitorList data => rfl
  | updateMonitorIntoList envKey entity =>
    simp [applyPush, refApply, assocLookup_assocSet, hag]
  | deleteMonitorFromList monitorId =>
    simp [applyPush, refApply, assocLookup_assocDelete, hag]

theorem replay_agrees (evs : List PushEvent) :
    ∀ (m : List (String × JSValue)) (r : String → Option JSValue),
      (∀ k, assocLookup m k = r k) →
      ∀ k, assocLookup (evs.foldl applyPush m) k = (evs.foldl refApply r) k := by
  induction evs with
  | nil => intro m r hag k; simpa using hag k
  | cons ev rest ih =>
    intro m r hag k
    simp only [List.foldl_cons]
    exact ih (applyPush m ev) (refApply r ev) (refApply_agrees ev m r hag) k

/-- Claim C4: starting from the empty cache, applying any sequence of
server push events in arrival order with the source handlers for full
replace, single-entity upsert and delete yields a cache whose contents,
read at any key, exactly equal replaying the same sequence against the
reference mapping from entity ID to entity. -/
theorem cache_replay_matches_reference (evs : List PushEvent) (k : String) :
    assocLookup (evs.foldl applyPush []) k = (evs.foldl refApply (fun _ => none)) k :=
  replay_agrees evs [] (fun _ => none) (fun _ => rfl) k

/-- Claim C2 counterexample: at the concrete input where the deadline
elapses first and an ack arrives afterwards, the late ack callback is
not a no-op: it performs a second response write attempt on the same
request, so the claim that the losing party is disarmed is false of the
code. -/
theorem late_ack_second_attempt_cex :
    (emitStep (.str "ping") emitInit .timerFires).attempts.length = 1 ∧
    (emitStep (.str "ping") (emitStep (.str "ping") emitInit .timerFires)
        (.ackArrives (.obj [("ok", .bool true)]))).attempts.length = 2 :=
  ⟨rfl, rfl⟩

/-- Claim C2 as amended: when the ack arrives first it disarms the
timer, so a later timer firing is a no-op; but when the deadline
elapses first the ack callback is not disarmed, and a late ack always
performs one further response write attempt. -/
theorem ack_timer_race_partial_disarm (event ack : JSValue) (st : EmitState) :
    emitStep event (emitStep event st (.ackArrives ack)) .timerFires =
      emitStep event st (.ackArrives ack) ∧
    (emitStep event (emitStep event st .timerFires) (.ackArrives ack)).attempts =
      (emitStep event st .timerFires).attempts ++ [ackResponse ack] := by
  constructor
  · simp [emitStep]
  · simp [emitStep]

/-- Claim C6: when the ack payload carries a boolean ok flag, the
acknowledgement callback writes the 400 response with the payload
verbatim exactly when the flag is false, and otherwise writes the 200
response with the payload as-is. -/
theorem ack_ok_flag_decides_response (ack : JSValue) (b : Bool)
    (h : jsProp ack "ok" = .bool b) :
    (ackResponse ack = ⟨400, .val ack⟩ ↔ b = false) ∧
    (b = true → ackResponse ack = ⟨200, .val ack⟩) := by
  cases b
  · simp [ackResponse, h, truthy]
  · simp [ackResponse, h, truthy]

theorem ack_ok_flag_decides_response_witness :
    (ackResponse ackFalseSample = ⟨400, .val ackFalseSample⟩ ↔ false = false) ∧
    (false = true → ackResponse ackFalseSample = ⟨200, .val ackFalseSample⟩) :=
  ack_ok_flag_decides_response ackFalseSample false rfl

/-- Claim C1 counterexample: after a failed establishment (login
rejected) for a fresh destination, the registry does hold an entry for
that destination, and the next call for the same destination reuses the
stored socket instead of running a fresh establishment, so the claim is
false of the code. -/
theorem failed_establishment_stores_entry_cex :
    assocLookup (connectSocket [] "ws://h:1" sampleCreds 0 .loginFailed).2 "ws://h:1" =
      some ⟨⟨0, true⟩, []⟩ ∧
    (connectSocket (connectSocket [] "ws://h:1" sampleCreds 0 .loginFailed).2
        "ws://h:1" sampleCreds 1 .loginOk).1 = .reused ⟨0, true⟩ :=
  ⟨rfl, rfl⟩

/-- Claim C1 as amended: if establishment of a connection for a fresh
destination fails (login rejected, or disconnect before the handle
becomes usable), the triggering call fails, but the registry keeps the
entry stored at the start of establishment, so a subsequent
connectSocket call for the same destination returns the stored socket
instead of running a fresh establishment. -/
theorem failed_establishment_keeps_partial_entry
    (reg : Registry) (uri : String) (creds creds2 : JSValue) (fresh fresh2 : Nat)
    (outcome outcome2 : EstablishOutcome)
    (hnone : assocLookup reg uri = none) (hfail : outcome ≠ .loginOk) :
    (∃ err, (connectSocket reg uri creds fresh outcome).1 = .failed err) ∧
    ∃ s, assocLookup (connectSocket reg uri creds fresh outcome).2 uri = some ⟨s, []⟩ ∧
      (connectSocket (connectSocket reg uri creds fresh outcome).2 uri creds2 fresh2 outcome2).1 =
        .reused s := by
  cases outcome with
  | loginOk => exact absurd rfl hfail
  | loginFailed =>
    refine ⟨⟨"Login failed", ?_⟩, ⟨fresh, true⟩, ?_, ?_⟩
    · simp [connectSocket, hnone]
    · simp [connectSocket, hnone, assocLookup_assocSet]
    · have h2 : assocLookup (connectSocket reg uri creds fresh .loginFailed).2 uri =
          some ⟨⟨fresh, true⟩, []⟩ := by
        simp [connectSocket, hnone, assocLookup_assocSet]
      simp [connectSocket_lookup_some creds2 fresh2 outcome2 h2]
  | disconnected reason =>
    refine ⟨⟨reason, ?_⟩, ⟨fresh, false⟩, ?_, ?_⟩
    · simp [connectSocket, hnone]
    · simp [connectSocket, hnone, assocLookup_assocSet]
    · have h2 : assocLookup (connectSocket reg uri creds fresh (.disconnected reason)).2 uri =
          some ⟨⟨fresh, false⟩, []⟩ := by
        simp [connectSocket, hnone, assocLookup_assocSet]
      simp [connectSocket_lookup_some creds2 fresh2 outcome2 h2]

theorem failed_establishment_keeps_partial_entry_witness :
    (∃ err, (connectSocket [] "u" sampleCreds 0 .loginFailed).1 = .failed err) ∧
    ∃ s, assocLookup (connectSocket [] "u" sampleCreds 0 .loginFailed).2 "u" = some ⟨s, []⟩ ∧
      (connectSocket (connectSocket [] "u" sampleCreds 0 .loginFailed).2
          "u" sampleCreds 1 .loginOk).1 = .reused s :=
  failed_establishment_keeps_partial_entry [] "u" sampleCreds sampleCreds 0 1
    .loginFailed .loginOk rfl (by decide)

/-- Claim C3: the registry keys stay free of duplicates across any
connectSocket call, so there is at most one entry per destination; and
a call for a destination that already has an entry returns that entry
with the same socket object and leaves the registry untouched, for any
credentials and any handshake outcome, so no new establishment is
started and credentials are ignored on reuse. -/
theorem registry_unique_and_reuses (reg : Registry) (uri : String)
    (creds creds2 : JSValue) (fresh : Nat) (outcome : EstablishOutcome) (e : Entry) :
    ((reg.map Prod.fst).Nodup →
      (((connectSocket reg uri creds fresh outcome).2).map Prod.fst).Nodup) ∧
    (assocLookup reg uri = some e →
      connectSocket reg uri creds2 fresh outcome = (.reused e.socket, reg)) := by
  constructor
  · intro hnd
    cases hlook : assocLookup reg uri with
    | some e2 =>
      simpa [connectSocket_lookup_some creds fresh outcome hlook] using hnd
    | none =>
      have hmem := not_mem_keys_of_lookup_none hlook
      cases outcome <;>
        simp [connectSocket, hlook, assocSet_of_lookup_none hlook, List.map_append,
          List.nodup_append, hnd, hmem]
  · intro hsome
    exact connectSocket_lookup_some creds2 fresh outcome hsome

theorem registry_unique_and_reuses_witness :
    (((connectSocket [("u", entrySample)] "u" sampleCreds 1 .loginOk).2).map Prod.fst).Nodup ∧
    connectSocket [("u", entrySample)] "u" sampleCreds 1 .loginOk =
      (.reused entrySample.socket, [("u", entrySample)]) :=
  ⟨(registry_unique_and_reuses [("u", entrySample)] "u" sampleCreds sampleCreds 1
      .loginOk entrySample).1 (by simp),
   (registry_unique_and_reuses [("u", entrySample)] "u" sampleCreds sampleCreds 1
      .loginOk entrySample).2 rfl⟩

/-- Claim C5: when the POST /emit request is valid and the registry
already holds an entry for the destination whose socket is not
connected, the handler writes the 503 response and does not emit the
event. -/
theorem emit_disconnected_503_no_emit (body : List (String × JSValue)) (reg : Registry)
    (fresh : Nat) (outcome : EstablishOutcome) (e : Entry)
    (hu : truthy (jsGet body "uri") = true)
    (hc : truthy (jsGet body "credentials") = true)
    (he : truthy (jsGet body "event") = true)
    (hp : truthy (jsGet body "payload") = true)
    (hreg : assocLookup reg (jsToKey (jsGet body "uri")) = some e)
    (hdisc : e.socket.connected = false) :
    emitPhase1 body reg fresh outcome = (.response resp503 true, reg) := by
  simp [emitPhase1, hu, hc, he, hp,
    connectSocket_lookup_some (jsGet body "credentials") fresh outcome hreg, hdisc]

theorem emit_disconnected_503_no_emit_witness :
    emitPhase1 emitBodySample [("u", deadEntry)] 1 .loginOk =
      (.response resp503 true, [("u", deadEntry)]) :=
  emit_disconnected_503_no_emit emitBodySample [("u", deadEntry)] 1 .loginOk deadEntry
    rfl rfl rfl rfl rfl rfl

/-- Claim C7: a request missing a required field on any of the three
endpoints is answered with the 400 validation response, the registry is
not mutated, and no connection attempt is made, the result being the
same for every handshake outcome. -/
theorem missing_fields_400_no_connect (body : List (String × JSValue)) (reg : Registry)
    (fresh : Nat) (outcome : EstablishOutcome) :
    ((assocLookup body "uri" = none ∨ assocLookup body "credentials" = none ∨
        assocLookup body "event" = none ∨ assocLookup body "payload" = none) →
      emitPhase1 body reg fresh outcome = (.response resp400emit false, reg)) ∧
    ((assocLookup body "uri" = none ∨ assocLookup body "credentials" = none) →
      monitorsHandler body reg fresh outcome = (.response resp400uriCred, reg) ∧
      groupsHandler body reg fresh outcome = (.response resp400uriCred, reg)) := by
  constructor
  · intro h
    rcases h with h | h | h | h <;> simp [emitPhase1, truthy_jsGet_none h]
  · intro h
    rcases h with h | h <;>
      exact ⟨by simp [monitorsHandler, truthy_jsGet_none h],
             by simp [groupsHandler, truthy_jsGet_none h]⟩

theorem missing_fields_400_no_connect_witness :
    emitPhase1 [("credentials", sampleCreds)] [] 0 .loginOk =
      (.response resp400emit false, []) ∧
    (monitorsHandler [("credentials", sampleCreds)] [] 0 .loginOk =
        (.response resp400uriCred, []) ∧
      groupsHandler [("credentials", sampleCreds)] [] 0 .loginOk =
        (.response resp400uriCred, [])) :=
  ⟨(missing_fields_400_no_connect [("credentials", sampleCreds)] [] 0 .loginOk).1 (Or.inl rfl),
   (missing_fields_400_no_connect [("credentials", sampleCreds)] [] 0 .loginOk).2 (Or.inl rfl)⟩

/-- Claim C10: the POST /emit validation rejects with the 400 response
any request in which a required field is falsy, present or not, and in
particular the falsy values 0, false, null and the empty string are
rejected, even though the emit path would substitute the empty object
for a nullish payload. -/
theorem falsy_fields_rejected (body : List (String × JSValue)) (reg : Registry)
    (fresh : Nat) (outcome : EstablishOutcome)
    (h : truthy (jsGet body "uri") = false ∨ truthy (jsGet body "credentials") = false ∨
         truthy (jsGet body "event") = false ∨ truthy (jsGet body "payload") = false) :
    emitPhase1 body reg fresh outcome = (.response resp400emit false, reg) ∧
    truthy (.num 0) = false ∧ truthy (.bool false) = false ∧ truthy .null = false ∧
    truthy (.str "") = false ∧ nullishCoalesce .null (.obj []) = .obj [] := by
  refine ⟨?_, rfl, rfl, rfl, rfl, rfl⟩
  rcases h with h | h | h | h <;> simp [emitPhase1, h]

theorem falsy_fields_rejected_witness :
    emitPhase1 nullPayloadBody [] 0 .loginOk = (.response resp400emit false, []) ∧
    truthy (.num 0) = false ∧ truthy (.bool false) = false ∧ truthy .null = false ∧
    truthy (.str "") = false ∧ nullishCoalesce .null (.obj []) = .obj [] :=
  falsy_fields_rejected nullPayloadBody [] 0 .loginOk (Or.inr (Or.inr (Or.inr rfl)))

/-- Claim C8: for a valid request against an entry with a connected
socket, the POST /groups handler returns exactly the POST /monitors
entities restricted to those whose kind is group, projected so that
every returned item carries only the fields id and name. -/
theorem groups_filter_projection (body : List (String × JSValue)) (reg : Registry)
    (fresh : Nat) (outcome : EstablishOutcome) (e : Entry)
    (hu : truthy (jsGet body "uri") = true)
    (hc : truthy (jsGet body "credentials") = true)
    (hreg : assocLookup reg (jsToKey (jsGet body "uri")) = some e)
    (hconn : e.socket.connected = true) :
    groupsHandler body reg fresh outcome =
      (.response ⟨200, .list (((assocValues e.monitors).filter isGroup).map projectGroup)⟩, reg) ∧
    monitorsHandler body reg fresh outcome =
      (.response ⟨200, .list (assocValues e.monitors)⟩, reg) ∧
    ∀ item ∈ ((assocValues e.monitors).filter isGroup).map projectGroup,
      jsKeys item = ["id", "name"] := by
  refine ⟨?_, ?_, ?_⟩
  · simp [groupsHandler, hu, hc,
      connectSocket_lookup_some (jsGet body "credentials") fresh outcome hreg, hconn,
      monitorsOf, hreg, groupsBody]
  · simp [monitorsHandler, hu, hc,
      connectSocket_lookup_some (jsGet body "credentials") fresh outcome hreg, hconn,
      monitorsOf, hreg]
  · intro item hitem
    simp only [List.mem_map] at hitem
    obtain ⟨g, _, rfl⟩ := hitem
    rfl

theorem groups_filter_projection_witness :
    groupsHandler listBody [("u", liveEntry)] 1 .loginOk =
      (.response ⟨200, .list (((assocValues liveEntry.monitors).filter isGroup).map projectGroup)⟩,
        [("u", liveEntry)]) ∧
    monitorsHandler listBody [("u", liveEntry)] 1 .loginOk =
      (.response ⟨200, .list (assocValues liveEntry.monitors)⟩, [("u", liveEntry)]) ∧
    ∀ item ∈ ((assocValues liveEntry.monitors).filter isGroup).map projectGroup,
      jsKeys item = ["id", "name"] :=
  groups_filter_projection listBody [("u", liveEntry)] 1 .loginOk liveEntry rfl rfl rfl rfl

/-- Claim C9: a valid POST /monitors request for a destination with no
entry, whose establishment succeeds, stores a fresh entry whose monitor
cache is empty and answers with the empty array. -/
theorem fresh_entry_empty_monitors (body : List (String × JSValue)) (reg : Registry)
    (fresh : Nat)
    (hu : truthy (jsGet body "uri") = true)
    (hc : truthy (jsGet body "credentials") = true)
    (hnone : assocLookup reg (jsToKey (jsGet body "uri")) = none) :
    monitorsHandler body reg fresh .loginOk =
      (.response ⟨200, .list []⟩,
        assocSet reg (jsToKey (jsGet body "uri")) ⟨⟨fresh, true⟩, []⟩) := by
  simp [monitorsHandler, hu, hc,
    connectSocket_lookup_none_loginOk (jsGet body "credentials") fresh hnone,
    monitorsOf, assocLookup_assocSet, assocValues]

theorem fresh_entry_empty_monitors_witness :
    monitorsHandler listBody [] 0 .loginOk =
      (.response ⟨200, .list []⟩, assocSet [] "u" ⟨⟨0, true⟩, []⟩) :=
  fresh_entry_empty_monitors listBody [] 0 rfl rfl rfl
